import Mathlib

/-!
Verification of the penguin server connection-lifecycle code
(`server/server_handler.go`) against its natural-language specification.

The Go code is shallowly embedded: the two handler functions
`handleClientHandler` and `handleWebsocket` become pure Lean functions that
return the sequence of externally observable effects (log lines, HTTP
responses, SSH replies, connection closes, tunnel binds).  Collaborator code
that lives outside the embedded file (the `settings`, `cio` and `tunnel`
packages) is abstracted: its observable outcomes become inputs of the model,
and where its behaviour decides a claim it is modelled from the spec (marked
in the doc comment of the definition).
-/

namespace Penguin

/-! ## String helpers

Go's string primitives, implemented structurally over the character lists
so the kernel can evaluate them. -/

/-- Go's `strings.ToLower`, restricted to its ASCII behaviour (the only
comparison target in the embedded code, `"websocket"`, is ASCII). -/
def lowerString (s : String) : String := ⟨s.data.map Char.toLower⟩

/-- Go's `strings.HasPrefix s pre`. -/
def strHasPre (s pre : String) : Bool := pre.data.isPrefixOf s.data

/-- Go's `strings.HasSuffix s suf`. -/
def strHasSuf (s suf : String) : Bool :=
  suf.data.reverse.isPrefixOf s.data.reverse

/-! ## HTTP dispatch (`handleClientHandler`, server_handler.go lines 18-56) -/

/-- The server-side configuration fields read by the handlers
(`s.config.Psk`, `s.config.Obfs`, `s.config.Resp404`, `s.config.Reverse`). -/
structure ServerConfig where
  psk : String
  obfs : Bool
  resp404 : String
  reverse : Bool
  deriving Repr, DecidableEq

/-- The server state read by the dispatcher: its configuration, whether a
reverse-proxy delegate is configured (`s.reverseProxy != nil`), and the two
build-time string constants `chshare.ProtocolVersion` and
`chshare.BuildVersion` (their values are external to the embedded file, so
they are carried as abstract strings). -/
structure ServerState where
  config : ServerConfig
  hasReverseProxy : Bool
  protocolVersion : String
  buildVersion : String
  deriving Repr, DecidableEq

/-- The request fields read by `handleClientHandler`: the three headers
(`Upgrade`, `Sec-WebSocket-Protocol`, `X-Penguin-Psk`; Go's `Header.Get`
returns `""` for an absent header, so absence is the empty string), the URL
path, and the HTTP method (carried to show it is never inspected). -/
structure HttpRequest where
  upgradeHeader : String
  protoHeader : String
  pskHeader : String
  path : String
  method : String
  deriving Repr, DecidableEq

/-- The observable outcome of the dispatcher: hand off to the websocket
handler, hand off to the reverse-proxy delegate, or write an HTTP response
(a bare `w.Write` in Go implies status 200). -/
inductive HttpOutcome where
  | upgraded
  | proxied
  | respond (status : Nat) (body : String)
  deriving Repr, DecidableEq

/-- The non-tunnel path of `handleClientHandler` (lines 37-55): reverse
proxy if configured, else health/version endpoints when obfuscation is off,
else 404 with the configured body. -/
def fallThrough (s : ServerState) (r : HttpRequest) : HttpOutcome :=
  if s.hasReverseProxy then
    .proxied
  else
    if !s.config.obfs then
      if r.path = "/health" then .respond 200 "OK\n"
      else if r.path = "/version" then .respond 200 s.buildVersion
      else .respond 404 s.config.resp404
    else .respond 404 s.config.resp404

/-- `handleClientHandler` (lines 18-56).  Returns the info-log lines emitted
and the outcome. -/
def handleClientHandler (s : ServerState) (r : HttpRequest) :
    List String × HttpOutcome :=
  if lowerString r.upgradeHeader = "websocket" ∧
      strHasPre r.protoHeader "penguin-" = true then
    if s.config.psk = "" ∨ r.pskHeader = s.config.psk then
      if r.protoHeader = s.protocolVersion then
        ([], .upgraded)
      else
        (["ignoring client connection using protocol '" ++ r.protoHeader ++
          "', expected '" ++ s.protocolVersion ++ "'"], fallThrough s r)
    else
      (["ignoring client connection with incorrect or missing PSK '" ++
        r.pskHeader ++ "'"], fallThrough s r)
  else
    ([], fallThrough s r)

/-! ## Websocket session supervisor (`handleWebsocket`, lines 59-174)

The supervisor is embedded as a pure function from its external inputs
(upgrade/handshake outcome, ticket-store lookup, the first out-of-band
request or its timeout, the decoded config, the joined sub-task error) to
the ordered list of observable effects it performs. -/

/-- Modelled from the spec: the observable interface of `settings.Remote`
(its definition is not among the embedded sources).  The handler reads its
canonical access address `UserAddr()`, its `Reverse` flag, the pre-bind
feasibility check `CanListen()`, and its rendering `String()`; each is
carried as an abstract value. -/
structure Remote where
  userAddr : String
  reverse : Bool
  canListen : Bool
  repr : String
  deriving Repr, DecidableEq

/-- Modelled from the spec: `settings.User` (not among the embedded
sources) with its `has_access(addr)` operation, abstracted as a predicate
on `host:port` strings. -/
structure User where
  hasAccess : String → Bool

/-- Modelled from the spec: the decoded `SessionConfig` — a version string
and an ordered list of Remote (`settings.DecodeConfig` itself is not among
the embedded sources, so decoding is a parameter of the model). -/
structure SessionConfig where
  version : String
  remotes : List Remote

/-- The fields of an `ssh.Request` read by the handler: its type and its
payload. -/
structure SSHReq where
  rtype : String
  payload : List UInt8

/-- One observable effect of the websocket handler, in program order:
debug/info log lines, a reply on the pending out-of-band request
(`r.Reply(ok, payload)`; `nil` payload is `none`), closing the
cryptographic connection (`sshConn.Close()`), consuming (deleting) the
session ticket (`s.sessions.Del(sid)`), a Go `panic`, and reaching the
tunnel-bind phase with the given `Inbound` flag and reverse-remote list. -/
inductive Event where
  | logDebug (msg : String)
  | logInfo (msg : String)
  | reply (ok : Bool) (payload : Option String)
  | closeSSH
  | ticketConsumed
  | panicEv (msg : String)
  | bindTunnel (inbound : Bool) (serverInbound : List Remote)
  deriving Repr, DecidableEq

/-- The external inputs of one `handleWebsocket` run: the upgrade and
handshake outcomes (`some err` on failure), whether any users are
configured (`s.users.Len() > 0`), the ticket-store lookup result for this
session id, the first out-of-band request (`none` when the config timeout
fires first), the server policy's reverse flag, the build version, and the
joined error of the two tunnel sub-tasks (`eg.Wait()`). -/
structure WsInput where
  upgradeErr : Option String
  handshakeErr : Option String
  usersNonempty : Bool
  ticket : Option User
  firstReq : Option SSHReq
  serverReverse : Bool
  buildVersion : String
  egResult : Option String

/-- The `failed` closure (lines 98-101): log `failed: <err>` at debug and
reply negatively with the error text.  Modelled from the spec:
`s.Errorf`/`cio.Logger.Errorf` (not among the embedded sources) renders the
formatted message as the error text. -/
def failedEvents (msg : String) : List Event :=
  [.logDebug ("failed: " ++ msg), .reply false (some msg)]

/-- The session-close log line (lines 168-173): `err != nil &&
!strings.HasSuffix(err.Error(), "EOF")` selects the parenthesised form. -/
def closeLogLine (err : Option String) : String :=
  match err with
  | some e =>
    if !(strHasSuf e "EOF") = true then
      "closed connection (" ++ e ++ ")"
    else "closed connection"
  | none => "closed connection"

/-- The advisory version-mismatch log (lines 111-119): emitted only when
the decoded version differs from the build version, rendering the empty
string as `<unknown>`. -/
def versionEvents (cVersion bv : String) : List Event :=
  if cVersion ≠ bv then
    [.logInfo ("client version (" ++
      (if cVersion = "" then "<unknown>" else cVersion) ++
      ") differs from server version (" ++ bv ++ ")")]
  else []

/-- The reverse-policy checks on one remote (lines 131-141): reverse
requires the server's reverse flag, then the listener feasibility check.
`none` means the remote passed. -/
def checkRemotePolicy (srvRev : Bool) (r : Remote) : Option (List Event) :=
  if r.reverse && !srvRev then
    some (.logDebug
      "denied reverse port forwarding request, please enable --reverse" ::
      failedEvents "reverse port forwarding not enabled on server")
  else if r.reverse && !r.canListen then
    some (failedEvents ("server cannot listen on " ++ r.repr))
  else none

/-- The full per-remote check (lines 121-141): user ACL first (only when a
user is attached), then the reverse-policy checks. -/
def checkRemote (user : Option User) (srvRev : Bool) (r : Remote) :
    Option (List Event) :=
  match user with
  | some u =>
    if !(u.hasAccess r.userAddr) then
      some (failedEvents ("access to '" ++ r.userAddr ++ "' denied"))
    else checkRemotePolicy srvRev r
  | none => checkRemotePolicy srvRev r

/-- The validation loop over the declared remotes (lines 120-142): the
first failing remote's events end the loop; `none` means all passed. -/
def validateLoop (user : Option User) (srvRev : Bool) :
    List Remote → Option (List Event)
  | [] => none
  | r :: rest =>
    match checkRemote user srvRev r with
    | some evs => some evs
    | none => validateLoop user srvRev rest

/-- Validation outcome and what follows (lines 120-173): a failing remote's
events, or the positive empty reply, the tunnel bind (with `Inbound :=
s.config.Reverse` and the reverse-filtered remotes — `Remotes.Reversed(true)`
is modelled from the spec as the order-preserving reverse filter), and the
close log line for the joined sub-task error. -/
def validationPhase (user : Option User) (srvRev : Bool)
    (egResult : Option String) (remotes : List Remote) : List Event :=
  match validateLoop user srvRev remotes with
  | some evs => evs
  | none =>
    [.reply true none,
     .bindTunnel srvRev (remotes.filter fun r => r.reverse),
     .logDebug (closeLogLine egResult)]

/-- Everything after a successful config decode (lines 111-173). -/
def afterConfig (user : Option User) (srvRev : Bool) (bv : String)
    (egResult : Option String) (c : SessionConfig) : List Event :=
  versionEvents c.version bv ++
    validationPhase user srvRev egResult c.remotes

/-- Everything after the ticket pull (lines 89-173): the config-request
wait with timeout, the type check, the decode, then `afterConfig`. -/
def afterUsers (decode : List UInt8 → Option SessionConfig)
    (user : Option User) (inp : WsInput) : List Event :=
  match inp.firstReq with
  | none => [.logDebug "timeout waiting for configuration", .closeSSH]
  | some r =>
    if r.rtype ≠ "config" then
      failedEvents "expecting config request"
    else
      match decode r.payload with
      | none => failedEvents "invalid config"
      | some c =>
        afterConfig user inp.serverReverse inp.buildVersion inp.egResult c

/-- `handleWebsocket` (lines 59-174) as a trace of observable effects,
parameterised over the config decoder (`settings.DecodeConfig` is not
among the embedded sources). -/
def handleWebsocketModel (decode : List UInt8 → Option SessionConfig)
    (inp : WsInput) : List Event :=
  match inp.upgradeErr with
  | some e => [.logDebug ("failed to upgrade (" ++ e ++ ")")]
  | none =>
    match inp.handshakeErr with
    | some e => [.logDebug ("failed to handshake (" ++ e ++ ")")]
    | none =>
      if inp.usersNonempty then
        match inp.ticket with
        | none => [.panicEv "bug in ssh auth handler"]
        | some u => .ticketConsumed :: afterUsers decode (some u) inp
      else
        afterUsers decode none inp

/-- The ticket-consumption prefix of the trace: present exactly when users
are configured (and the ticket is found). -/
def consumedPre (inp : WsInput) : List Event :=
  if inp.usersNonempty then [Event.ticketConsumed] else []

/-- The user attached to the session: the ticket when users are
configured, else nobody. -/
def effUser (inp : WsInput) : Option User :=
  if inp.usersNonempty then inp.ticket else none

/-- Modelled from the spec: `settings.EnvDuration(name, default)` (not
among the embedded sources) returns the duration parsed from the named
environment variable when it is set, else the default.  Durations are in
nanoseconds (Go `time.Duration`); the environment with parsing is
abstracted as a partial map. -/
def EnvDuration (env : String → Option Nat) (key : String)
    (deflt : Nat) : Nat :=
  (env key).getD deflt

/-- The config-exchange timeout (line 93): `EnvDuration("CONFIG_TIMEOUT",
10*time.Second)`. -/
def configTimeoutNanos (env : String → Option Nat) : Nat :=
  EnvDuration env "CONFIG_TIMEOUT" (10 * 1000000000)

/-! ## Spec-side restatement of the remote-validation procedure

These definitions are written from the claim's words, to be compared with
the source-derived `validateLoop`. -/

/-- Spec-side verdict of validating the remote list: the first failing
check in declared order, or `pass`. -/
inductive Verdict where
  | denied (addr : String)
  | revOff
  | noListen (remoteRepr : String)
  | pass
  deriving Repr, DecidableEq

/-- Spec-side checks (2) and (3) on one remote: a reverse-marked remote
requires the server policy's reverse flag, then the listener feasibility
check. -/
def specCheckPolicy (srvRev : Bool) (r : Remote) : Verdict :=
  if r.reverse && !srvRev then .revOff
  else if r.reverse && !r.canListen then .noListen r.repr
  else .pass

/-- Spec-side check (1) then (2)(3) on one remote: with a user attached,
the canonical access address must satisfy `has_access`. -/
def specCheckOne (user : Option User) (srvRev : Bool) (r : Remote) :
    Verdict :=
  match user with
  | some u =>
    if u.hasAccess r.userAddr then specCheckPolicy srvRev r
    else .denied r.userAddr
  | none => specCheckPolicy srvRev r

/-- Spec-side validation of the remote list in declared order: the first
failure wins; the empty list passes. -/
def specVerdict (user : Option User) (srvRev : Bool) :
    List Remote → Verdict
  | [] => .pass
  | r :: rest =>
    match specCheckOne user srvRev r with
    | .pass => specVerdict user srvRev rest
    | v => v

/-- The events the spec prescribes for each failing verdict (`none` for
`pass`). -/
def verdictEvents : Verdict → Option (List Event)
  | .pass => none
  | .denied addr => some (failedEvents ("access to '" ++ addr ++ "' denied"))
  | .revOff => some (.logDebug
      "denied reverse port forwarding request, please enable --reverse" ::
      failedEvents "reverse port forwarding not enabled on server")
  | .noListen s => some (failedEvents ("server cannot listen on " ++ s))

/-! ## Theorems -/

theorem fallThrough_ne_upgraded (s : ServerState) (r : HttpRequest) :
    fallThrough s r ≠ .upgraded := by
  unfold fallThrough
  split
  · simp
  · split
    · split
      · simp
      · split <;> simp
    · simp

theorem handleClientHandler_not_upgraded (s : ServerState) (r : HttpRequest)
    (h : (handleClientHandler s r).2 ≠ .upgraded) :
    (handleClientHandler s r).2 = fallThrough s r := by
  by_cases h1 : lowerString r.upgradeHeader = "websocket" ∧
      strHasPre r.protoHeader "penguin-" = true
  · by_cases h2 : s.config.psk = "" ∨ r.pskHeader = s.config.psk
    · by_cases h3 : r.protoHeader = s.protocolVersion
      · exfalso
        apply h
        unfold handleClientHandler
        rw [if_pos h1, if_pos h2, if_pos h3]
      · simp [handleClientHandler, h1, h2, h3]
    · simp [handleClientHandler, h1, h2]
  · simp [handleClientHandler, h1]

/-- **C1.** With a non-empty configured PSK, a tunnel-upgrade candidate
request (lower-cased `Upgrade` header equal to `"websocket"`, sub-protocol
starting with `"penguin-"`) whose `X-Penguin-Psk` header is absent (i.e.
`""`) or unequal to the key is never upgraded: the handler logs the
incorrect-or-missing-PSK line and takes the non-tunnel fall-through path. -/
theorem C1_psk_enforcement (s : ServerState) (r : HttpRequest)
    (hup : lowerString r.upgradeHeader = "websocket")
    (hproto : strHasPre r.protoHeader "penguin-" = true)
    (hpsk : s.config.psk ≠ "")
    (hne : r.pskHeader ≠ s.config.psk) :
    (handleClientHandler s r).2 ≠ .upgraded ∧
    (handleClientHandler s r).1 =
      ["ignoring client connection with incorrect or missing PSK '" ++
        r.pskHeader ++ "'"] ∧
    (handleClientHandler s r).2 = fallThrough s r := by
  have h : handleClientHandler s r =
      (["ignoring client connection with incorrect or missing PSK '" ++
        r.pskHeader ++ "'"], fallThrough s r) := by
    unfold handleClientHandler
    simp [hup, hproto, hpsk, hne]
  refine ⟨?_, by simp [h], by simp [h]⟩
  simp only [h]
  exact fallThrough_ne_upgraded s r

theorem C1_psk_enforcement_witness :
    let s : ServerState :=
      { config := { psk := "right", obfs := false, resp404 := "nope",
                    reverse := false },
        hasReverseProxy := false, protocolVersion := "penguin-v1",
        buildVersion := "1.0" }
    let r : HttpRequest :=
      { upgradeHeader := "WebSocket", protoHeader := "penguin-v1",
        pskHeader := "wrong", path := "/", method := "GET" }
    (handleClientHandler s r).2 ≠ .upgraded ∧
    (handleClientHandler s r).1 =
      ["ignoring client connection with incorrect or missing PSK 'wrong'"] ∧
    (handleClientHandler s r).2 = fallThrough s r :=
  C1_psk_enforcement _ _ (by decide) (by decide) (by decide) (by decide)

/-- **C3.** Every request that is not upgraded gets the fall-through
treatment: the reverse-proxy delegate when configured; otherwise, with
obfuscation off, `/health` answers 200 `"OK\n"` and `/version` answers 200
with the build version; every remaining case (including any path under
obfuscation) answers 404 with the configured body. -/
theorem C3_fallthrough_order (s : ServerState) (r : HttpRequest)
    (h : (handleClientHandler s r).2 ≠ .upgraded) :
    (handleClientHandler s r).2 =
      if s.hasReverseProxy then .proxied
      else if s.config.obfs = false ∧ r.path = "/health" then
        .respond 200 "OK\n"
      else if s.config.obfs = false ∧ r.path = "/version" then
        .respond 200 s.buildVersion
      else .respond 404 s.config.resp404 := by
  rw [handleClientHandler_not_upgraded s r h]
  unfold fallThrough
  cases hrp : s.hasReverseProxy
  · cases hob : s.config.obfs
    · by_cases hh : r.path = "/health"
      · simp [hh]
      · by_cases hv : r.path = "/version" <;> simp [hh, hv]
    · simp
  · simp

theorem C3_fallthrough_order_witness :
    let s : ServerState :=
      { config := { psk := "", obfs := false, resp404 := "missing",
                    reverse := false },
        hasReverseProxy := false, protocolVersion := "penguin-v1",
        buildVersion := "1.2.3" }
    let r : HttpRequest :=
      { upgradeHeader := "", protoHeader := "", pskHeader := "",
        path := "/health", method := "GET" }
    (handleClientHandler s r).2 =
      if s.hasReverseProxy then .proxied
      else if s.config.obfs = false ∧ r.path = "/health" then
        .respond 200 "OK\n"
      else if s.config.obfs = false ∧ r.path = "/version" then
        .respond 200 s.buildVersion
      else .respond 404 s.config.resp404 :=
  C3_fallthrough_order _ _ (by decide)

/-- **C10.** The dispatcher never inspects the HTTP method: its result is
invariant under changing the method, and with no reverse proxy and
obfuscation off the `/health` and `/version` bodies are produced for any
method on a non-upgraded request. -/
theorem C10_method_ignored (s : ServerState) (r : HttpRequest)
    (m m' : String) :
    handleClientHandler s { r with method := m } =
      handleClientHandler s { r with method := m' } ∧
    (s.hasReverseProxy = false → s.config.obfs = false →
      (handleClientHandler s r).2 ≠ .upgraded →
      (r.path = "/health" →
        (handleClientHandler s r).2 = .respond 200 "OK\n") ∧
      (r.path = "/version" →
        (handleClientHandler s r).2 = .respond 200 s.buildVersion)) := by
  constructor
  · simp [handleClientHandler, fallThrough]
  · intro hrp hob hnup
    have h := C3_fallthrough_order s r hnup
    constructor
    · intro hp
      rw [h]
      simp [hrp, hob, hp]
    · intro hp
      rw [h]
      have hh : r.path ≠ "/health" := by
        rw [hp]; decide
      simp [hrp, hob, hp, hh]

theorem C10_method_ignored_witness :
    let s : ServerState :=
      { config := { psk := "", obfs := false, resp404 := "missing",
                    reverse := false },
        hasReverseProxy := false, protocolVersion := "penguin-v1",
        buildVersion := "1.2.3" }
    let r : HttpRequest :=
      { upgradeHeader := "", protoHeader := "", pskHeader := "",
        path := "/health", method := "POST" }
    (handleClientHandler s r).2 = .respond 200 "OK\n" :=
  ((C10_method_ignored _ _ "POST" "GET").2 rfl rfl (by decide)).1 rfl

/-! ### Structural lemmas on the websocket model -/

/-- Predicate selecting info-level log events. -/
def isInfoLine : Event → Bool
  | .logInfo _ => true
  | _ => false

theorem checkRemotePolicy_eq (srvRev : Bool) (r : Remote) :
    checkRemotePolicy srvRev r = verdictEvents (specCheckPolicy srvRev r) := by
  unfold checkRemotePolicy specCheckPolicy
  by_cases h1 : (r.reverse && !srvRev) = true
  · simp [h1, verdictEvents]
  · by_cases h2 : (r.reverse && !r.canListen) = true
    · simp [h1, h2, verdictEvents]
    · simp [h1, h2, verdictEvents]

theorem checkRemote_eq (user : Option User) (srvRev : Bool) (r : Remote) :
    checkRemote user srvRev r = verdictEvents (specCheckOne user srvRev r) := by
  cases user with
  | none => exact checkRemotePolicy_eq srvRev r
  | some u =>
    unfold checkRemote specCheckOne
    by_cases h : u.hasAccess r.userAddr = true
    · simp [h, checkRemotePolicy_eq]
    · simp [h, verdictEvents]

theorem validateLoop_eq (user : Option User) (srvRev : Bool) :
    ∀ rs : List Remote,
      validateLoop user srvRev rs = verdictEvents (specVerdict user srvRev rs)
  | [] => rfl
  | r :: rest => by
    unfold validateLoop specVerdict
    rw [checkRemote_eq]
    cases specCheckOne user srvRev r with
    | pass => simpa [verdictEvents] using validateLoop_eq user srvRev rest
    | denied addr => simp [verdictEvents]
    | revOff => simp [verdictEvents]
    | noListen s => simp [verdictEvents]

theorem validateLoop_some_shape (user : Option User) (srvRev : Bool)
    (rs : List Remote) (evs : List Event)
    (h : validateLoop user srvRev rs = some evs) :
    (∃ addr, evs = failedEvents ("access to '" ++ addr ++ "' denied")) ∨
    evs = .logDebug
      "denied reverse port forwarding request, please enable --reverse" ::
      failedEvents "reverse port forwarding not enabled on server" ∨
    (∃ s, evs = failedEvents ("server cannot listen on " ++ s)) := by
  rw [validateLoop_eq] at h
  cases hv : specVerdict user srvRev rs <;> rw [hv] at h <;>
    simp [verdictEvents] at h
  · exact Or.inl ⟨_, h.symm⟩
  · exact Or.inr (Or.inl h.symm)
  · exact Or.inr (Or.inr ⟨_, h.symm⟩)

theorem validateLoop_some_props (user : Option User) (srvRev : Bool)
    (rs : List Remote) (evs : List Event)
    (h : validateLoop user srvRev rs = some evs) :
    (∃ m, Event.reply false (some m) ∈ evs) ∧
    Event.closeSSH ∉ evs ∧
    Event.ticketConsumed ∉ evs ∧
    (∀ m, Event.panicEv m ∉ evs) ∧
    (∀ b l, Event.bindTunnel b l ∉ evs) ∧
    (∀ p, Event.reply true p ∉ evs) ∧
    evs.countP isInfoLine = 0 := by
  rcases validateLoop_some_shape user srvRev rs evs h with
    ⟨addr, rfl⟩ | rfl | ⟨s, rfl⟩
  · exact ⟨⟨"access to '" ++ addr ++ "' denied", by simp [failedEvents]⟩,
      by simp [failedEvents], by simp [failedEvents], by simp [failedEvents],
      by simp [failedEvents], by simp [failedEvents], rfl⟩
  · exact ⟨⟨"reverse port forwarding not enabled on server",
        by simp [failedEvents]⟩,
      by simp [failedEvents], by simp [failedEvents], by simp [failedEvents],
      by simp [failedEvents], by simp [failedEvents], rfl⟩
  · exact ⟨⟨"server cannot listen on " ++ s, by simp [failedEvents]⟩,
      by simp [failedEvents], by simp [failedEvents], by simp [failedEvents],
      by simp [failedEvents], by simp [failedEvents], rfl⟩

theorem versionEvents_shape (v bv : String) :
    versionEvents v bv = [] ∨
    ∃ m, versionEvents v bv = [Event.logInfo m] := by
  unfold versionEvents
  split
  · exact Or.inr ⟨_, rfl⟩
  · exact Or.inl rfl

theorem versionEvents_count (v bv : String) :
    (versionEvents v bv).countP isInfoLine =
      if v ≠ bv then 1 else 0 := by
  unfold versionEvents
  split <;> simp_all [List.countP, List.countP.go, isInfoLine]

theorem validationPhase_kinds (user : Option User) (srvRev : Bool)
    (eg : Option String) (rs : List Remote) :
    Event.closeSSH ∉ validationPhase user srvRev eg rs ∧
    Event.ticketConsumed ∉ validationPhase user srvRev eg rs ∧
    (∀ m, Event.panicEv m ∉ validationPhase user srvRev eg rs) ∧
    (validationPhase user srvRev eg rs).countP isInfoLine = 0 := by
  unfold validationPhase
  cases hv : validateLoop user srvRev rs with
  | some evs =>
    have hp := validateLoop_some_props user srvRev rs evs hv
    exact ⟨hp.2.1, hp.2.2.1, hp.2.2.2.1, hp.2.2.2.2.2.2⟩
  | none =>
    refine ⟨by simp, by simp, by simp, ?_⟩
    simp [List.countP, List.countP.go, isInfoLine]

theorem afterConfig_kinds (user : Option User) (srvRev : Bool) (bv : String)
    (eg : Option String) (c : SessionConfig) :
    Event.closeSSH ∉ afterConfig user srvRev bv eg c ∧
    Event.ticketConsumed ∉ afterConfig user srvRev bv eg c ∧
    (∀ m, Event.panicEv m ∉ afterConfig user srvRev bv eg c) := by
  unfold afterConfig
  have hv := versionEvents_shape c.version bv
  have hk := validationPhase_kinds user srvRev eg c.remotes
  rcases hv with hv | ⟨m, hv⟩ <;> rw [hv] <;>
    refine ⟨?_, ?_, ?_⟩ <;> simp [hk.1, hk.2.1] <;>
      intro m' <;> simp [hk.2.2.1 m']

theorem handleWebsocketModel_unfold
    (decode : List UInt8 → Option SessionConfig) (inp : WsInput)
    (hup : inp.upgradeErr = none) (hhs : inp.handshakeErr = none)
    (ht : inp.usersNonempty = true → inp.ticket ≠ none) :
    handleWebsocketModel decode inp =
      consumedPre inp ++ afterUsers decode (effUser inp) inp := by
  cases hu : inp.usersNonempty with
  | false => simp [handleWebsocketModel, consumedPre, effUser, hup, hhs, hu]
  | true =>
    cases htk : inp.ticket with
    | none => exact absurd htk (ht hu)
    | some u =>
      simp [handleWebsocketModel, consumedPre, effUser, hup, hhs, hu, htk]

theorem afterUsers_timeout (decode : List UInt8 → Option SessionConfig)
    (user : Option User) (inp : WsInput) (h : inp.firstReq = none) :
    afterUsers decode user inp =
      [.logDebug "timeout waiting for configuration", .closeSSH] := by
  unfold afterUsers
  rw [h]

theorem afterUsers_wrong_type (decode : List UInt8 → Option SessionConfig)
    (user : Option User) (inp : WsInput) (r : SSHReq)
    (h : inp.firstReq = some r) (hty : r.rtype ≠ "config") :
    afterUsers decode user inp = failedEvents "expecting config request" := by
  unfold afterUsers
  rw [h]
  simp [hty]

theorem afterUsers_bad_decode (decode : List UInt8 → Option SessionConfig)
    (user : Option User) (inp : WsInput) (r : SSHReq)
    (h : inp.firstReq = some r) (hty : r.rtype = "config")
    (hd : decode r.payload = none) :
    afterUsers decode user inp = failedEvents "invalid config" := by
  unfold afterUsers
  rw [h]
  simp [hty, hd]

theorem afterUsers_config (decode : List UInt8 → Option SessionConfig)
    (user : Option User) (inp : WsInput) (r : SSHReq) (c : SessionConfig)
    (h : inp.firstReq = some r) (hty : r.rtype = "config")
    (hd : decode r.payload = some c) :
    afterUsers decode user inp =
      afterConfig user inp.serverReverse inp.buildVersion inp.egResult c := by
  unfold afterUsers
  rw [h]
  simp [hty, hd]

theorem afterUsers_kinds (decode : List UInt8 → Option SessionConfig)
    (user : Option User) (inp : WsInput) :
    Event.ticketConsumed ∉ afterUsers decode user inp ∧
    (∀ m, Event.panicEv m ∉ afterUsers decode user inp) ∧
    (inp.firstReq ≠ none → Event.closeSSH ∉ afterUsers decode user inp) := by
  cases hr : inp.firstReq with
  | none =>
    rw [afterUsers_timeout decode user inp hr]
    exact ⟨by simp, by simp, fun h => absurd rfl h⟩
  | some r =>
    by_cases hty : r.rtype = "config"
    · cases hd : decode r.payload with
      | none =>
        rw [afterUsers_bad_decode decode user inp r hr hty hd]
        exact ⟨by simp [failedEvents], by simp [failedEvents],
          fun _ => by simp [failedEvents]⟩
      | some c =>
        rw [afterUsers_config decode user inp r c hr hty hd]
        have hk := afterConfig_kinds user inp.serverReverse inp.buildVersion
          inp.egResult c
        exact ⟨hk.2.1, hk.2.2, fun _ => hk.1⟩
    · rw [afterUsers_wrong_type decode user inp r hr hty]
      exact ⟨by simp [failedEvents], by simp [failedEvents],
        fun _ => by simp [failedEvents]⟩

theorem consumedPre_kinds (inp : WsInput) :
    (∀ ok p, Event.reply ok p ∉ consumedPre inp) ∧
    (∀ b l, Event.bindTunnel b l ∉ consumedPre inp) ∧
    Event.closeSSH ∉ consumedPre inp ∧
    (∀ m, Event.panicEv m ∉ consumedPre inp) ∧
    (consumedPre inp).countP isInfoLine = 0 := by
  unfold consumedPre
  cases inp.usersNonempty <;>
    simp [List.countP, List.countP.go, isInfoLine]

/-! ### The websocket-handler claims -/

/-- **C2.** Once a session reaches validation (handshake done, ticket found
when users exist, first request of type `config`, payload decoded), the
remotes are validated in declared order against the three spec-side checks
(`specVerdict`): the first failure draws the prescribed negative reply and
ends the handler; if every remote passes — in particular for the empty
list — the positive reply with empty payload is sent and the tunnel is
bound. -/
theorem C2_remote_validation (decode : List UInt8 → Option SessionConfig)
    (inp : WsInput) (r : SSHReq) (c : SessionConfig)
    (hup : inp.upgradeErr = none) (hhs : inp.handshakeErr = none)
    (ht : inp.usersNonempty = true → inp.ticket ≠ none)
    (hr : inp.firstReq = some r) (hty : r.rtype = "config")
    (hdec : decode r.payload = some c) :
    handleWebsocketModel decode inp =
      consumedPre inp ++ (versionEvents c.version inp.buildVersion ++
        (match specVerdict (effUser inp) inp.serverReverse c.remotes with
         | .denied addr =>
             failedEvents ("access to '" ++ addr ++ "' denied")
         | .revOff => Event.logDebug
             "denied reverse port forwarding request, please enable --reverse"
             :: failedEvents "reverse port forwarding not enabled on server"
         | .noListen s => failedEvents ("server cannot listen on " ++ s)
         | .pass =>
             [Event.reply true none,
              Event.bindTunnel inp.serverReverse
                (c.remotes.filter fun rm => rm.reverse),
              Event.logDebug (closeLogLine inp.egResult)])) := by
  rw [handleWebsocketModel_unfold decode inp hup hhs ht,
    afterUsers_config decode (effUser inp) inp r c hr hty hdec]
  unfold afterConfig validationPhase
  rw [validateLoop_eq]
  cases specVerdict (effUser inp) inp.serverReverse c.remotes <;>
    simp [verdictEvents]

theorem C2_remote_validation_witness :
    let decode : List UInt8 → Option SessionConfig :=
      fun _ => some { version := "v", remotes := [] }
    let inp : WsInput :=
      { upgradeErr := none, handshakeErr := none, usersNonempty := false,
        ticket := none, firstReq := some { rtype := "config", payload := [] },
        serverReverse := false, buildVersion := "v", egResult := none }
    handleWebsocketModel decode inp =
      consumedPre inp ++ (versionEvents "v" inp.buildVersion ++
        (match specVerdict (effUser inp) inp.serverReverse
            ([] : List Remote) with
         | .denied addr =>
             failedEvents ("access to '" ++ addr ++ "' denied")
         | .revOff => Event.logDebug
             "denied reverse port forwarding request, please enable --reverse"
             :: failedEvents "reverse port forwarding not enabled on server"
         | .noListen s => failedEvents ("server cannot listen on " ++ s)
         | .pass =>
             [Event.reply true none,
              Event.bindTunnel inp.serverReverse
                (List.filter (fun rm => rm.reverse) []),
              Event.logDebug (closeLogLine inp.egResult)])) :=
  C2_remote_validation _ _ _ _ rfl rfl (fun h => Bool.noConfusion h)
    rfl rfl rfl

/-- **C4.** The first out-of-band request must have type `"config"`: any
other type draws a negative reply with the error text and the handler
returns without binding a tunnel; a payload that fails to decode draws a
negative reply with text `"invalid config"` and likewise terminates. -/
theorem C4_config_first (decode : List UInt8 → Option SessionConfig)
    (inp : WsInput) (r : SSHReq)
    (hup : inp.upgradeErr = none) (hhs : inp.handshakeErr = none)
    (ht : inp.usersNonempty = true → inp.ticket ≠ none)
    (hr : inp.firstReq = some r) :
    (r.rtype ≠ "config" →
      handleWebsocketModel decode inp =
        consumedPre inp ++ failedEvents "expecting config request" ∧
      ∀ b l, Event.bindTunnel b l ∉ handleWebsocketModel decode inp) ∧
    (r.rtype = "config" → decode r.payload = none →
      handleWebsocketModel decode inp =
        consumedPre inp ++ failedEvents "invalid config" ∧
      ∀ b l, Event.bindTunnel b l ∉ handleWebsocketModel decode inp) := by
  constructor
  · intro hty
    have heq : handleWebsocketModel decode inp =
        consumedPre inp ++ failedEvents "expecting config request" := by
      rw [handleWebsocketModel_unfold decode inp hup hhs ht,
        afterUsers_wrong_type decode (effUser inp) inp r hr hty]
    refine ⟨heq, ?_⟩
    intro b l
    rw [heq]
    simp only [List.mem_append, not_or]
    exact ⟨(consumedPre_kinds inp).2.1 b l, by simp [failedEvents]⟩
  · intro hty hd
    have heq : handleWebsocketModel decode inp =
        consumedPre inp ++ failedEvents "invalid config" := by
      rw [handleWebsocketModel_unfold decode inp hup hhs ht,
        afterUsers_bad_decode decode (effUser inp) inp r hr hty hd]
    refine ⟨heq, ?_⟩
    intro b l
    rw [heq]
    simp only [List.mem_append, not_or]
    exact ⟨(consumedPre_kinds inp).2.1 b l, by simp [failedEvents]⟩

theorem C4_config_first_witness :
    let decode : List UInt8 → Option SessionConfig := fun _ => none
    let inp : WsInput :=
      { upgradeErr := none, handshakeErr := none, usersNonempty := false,
        ticket := none, firstReq := some { rtype := "ping", payload := [] },
        serverReverse := false, buildVersion := "v", egResult := none }
    handleWebsocketModel decode inp =
      consumedPre inp ++ failedEvents "expecting config request" :=
  ((C4_config_first _ _ { rtype := "ping", payload := [] } rfl rfl
    (fun h => Bool.noConfusion h) rfl).1 (by decide)).1

/-- **C5.** The config wait is bounded by a timeout of 10 seconds by
default, overridable through the `CONFIG_TIMEOUT` environment variable;
when the timeout fires first (no request arrives), the handler logs,
closes the cryptographic connection and returns — no reply is sent and no
tunnel is bound. -/
theorem C5_config_timeout (d : Nat)
    (decode : List UInt8 → Option SessionConfig) (inp : WsInput)
    (hup : inp.upgradeErr = none) (hhs : inp.handshakeErr = none)
    (ht : inp.usersNonempty = true → inp.ticket ≠ none)
    (hr : inp.firstReq = none) :
    configTimeoutNanos (fun _ => none) = 10000000000 ∧
    configTimeoutNanos
      (fun k => if k = "CONFIG_TIMEOUT" then some d else none) = d ∧
    handleWebsocketModel decode inp =
      consumedPre inp ++
        [Event.logDebug "timeout waiting for configuration",
         Event.closeSSH] ∧
    (∀ ok p, Event.reply ok p ∉ handleWebsocketModel decode inp) ∧
    (∀ b l, Event.bindTunnel b l ∉ handleWebsocketModel decode inp) := by
  have heq : handleWebsocketModel decode inp =
      consumedPre inp ++
        [Event.logDebug "timeout waiting for configuration",
         Event.closeSSH] := by
    rw [handleWebsocketModel_unfold decode inp hup hhs ht,
      afterUsers_timeout decode (effUser inp) inp hr]
  refine ⟨rfl, by simp [configTimeoutNanos, EnvDuration], heq, ?_, ?_⟩
  · intro ok p
    rw [heq]
    simp only [List.mem_append, not_or]
    exact ⟨(consumedPre_kinds inp).1 ok p, by simp⟩
  · intro b l
    rw [heq]
    simp only [List.mem_append, not_or]
    exact ⟨(consumedPre_kinds inp).2.1 b l, by simp⟩

theorem C5_config_timeout_witness :
    let decode : List UInt8 → Option SessionConfig := fun _ => none
    let inp : WsInput :=
      { upgradeErr := none, handshakeErr := none, usersNonempty := false,
        ticket := none, firstReq := none,
        serverReverse := false, buildVersion := "v", egResult := none }
    configTimeoutNanos (fun _ => none) = 10000000000 ∧
    handleWebsocketModel decode inp =
      consumedPre inp ++
        [Event.logDebug "timeout waiting for configuration",
         Event.closeSSH] :=
  let h := C5_config_timeout 7 (fun _ => none) _
    rfl rfl (fun h => Bool.noConfusion h) rfl
  ⟨h.1, h.2.2.1⟩

/-- **C7.** With at least one configured user, a completed handshake whose
session id has no ticket in the store panics immediately (the trace is the
lone panic event); when the ticket is present it is consumed exactly once
(the trace contains exactly one consumption event) and no panic occurs. -/
theorem C7_session_ticket (decode : List UInt8 → Option SessionConfig)
    (inp : WsInput)
    (hup : inp.upgradeErr = none) (hhs : inp.handshakeErr = none)
    (hu : inp.usersNonempty = true) :
    (inp.ticket = none →
      handleWebsocketModel decode inp =
        [Event.panicEv "bug in ssh auth handler"]) ∧
    (∀ u, inp.ticket = some u →
      (handleWebsocketModel decode inp).count Event.ticketConsumed = 1 ∧
      (∀ m, Event.panicEv m ∉ handleWebsocketModel decode inp)) := by
  constructor
  · intro htk
    simp [handleWebsocketModel, hup, hhs, hu, htk]
  · intro u htk
    have heq : handleWebsocketModel decode inp =
        Event.ticketConsumed :: afterUsers decode (some u) inp := by
      simp [handleWebsocketModel, hup, hhs, hu, htk]
    have hk := afterUsers_kinds decode (some u) inp
    constructor
    · rw [heq]
      have h0 : (afterUsers decode (some u) inp).count
          Event.ticketConsumed = 0 :=
        List.count_eq_zero_of_not_mem hk.1
      simp [List.count_cons, h0]
    · intro m
      rw [heq]
      simp [hk.2.1 m]

theorem C7_session_ticket_witness :
    let decode : List UInt8 → Option SessionConfig := fun _ => none
    let inp : WsInput :=
      { upgradeErr := none, handshakeErr := none, usersNonempty := true,
        ticket := none, firstReq := none,
        serverReverse := false, buildVersion := "v", egResult := none }
    handleWebsocketModel decode inp =
      [Event.panicEv "bug in ssh auth handler"] :=
  (C7_session_ticket _ _ rfl rfl rfl).1 rfl

/-- **C8.** Classification of the session-close log line: a `nil` joined
error or one whose text ends in `"EOF"` yields exactly
`"closed connection"`; any other non-nil error yields
`"closed connection (<text>)"`. -/
theorem C8_clean_close (err : Option String) :
    (err = none → closeLogLine err = "closed connection") ∧
    (∀ e, err = some e → strHasSuf e "EOF" = true →
      closeLogLine err = "closed connection") ∧
    (∀ e, err = some e → strHasSuf e "EOF" = false →
      closeLogLine err = "closed connection (" ++ e ++ ")") := by
  refine ⟨?_, ?_, ?_⟩
  · intro h
    rw [h]
    rfl
  · intro e h hs
    rw [h]
    simp [closeLogLine, hs]
  · intro e h hs
    rw [h]
    simp [closeLogLine, hs]

theorem C8_clean_close_witness :
    closeLogLine (some "read tcp: EOF") = "closed connection" ∧
    closeLogLine (some "boom") = "closed connection (boom)" :=
  ⟨(C8_clean_close (some "read tcp: EOF")).2.1 _ rfl (by decide),
   (C8_clean_close (some "boom")).2.2 _ rfl (by decide)⟩

/-- **C9.** A decoded version different from the build version is
advisory: the session proceeds into the very same validation phase (which
does not depend on the version), and exactly one info-level log line is
emitted, rendering an empty client version as `"<unknown>"`; equal
versions emit no info line. -/
theorem C9_version_advisory (decode : List UInt8 → Option SessionConfig)
    (inp : WsInput) (r : SSHReq) (c : SessionConfig)
    (hup : inp.upgradeErr = none) (hhs : inp.handshakeErr = none)
    (ht : inp.usersNonempty = true → inp.ticket ≠ none)
    (hr : inp.firstReq = some r) (hty : r.rtype = "config")
    (hdec : decode r.payload = some c) :
    handleWebsocketModel decode inp =
      consumedPre inp ++ (versionEvents c.version inp.buildVersion ++
        validationPhase (effUser inp) inp.serverReverse inp.egResult
          c.remotes) ∧
    (handleWebsocketModel decode inp).countP isInfoLine =
      (if c.version ≠ inp.buildVersion then 1 else 0) ∧
    (c.version ≠ inp.buildVersion → c.version = "" →
      versionEvents c.version inp.buildVersion =
        [Event.logInfo ("client version (<unknown>) differs from " ++
          "server version (" ++ inp.buildVersion ++ ")")]) ∧
    (c.version = inp.buildVersion →
      versionEvents c.version inp.buildVersion = []) := by
  have heq : handleWebsocketModel decode inp =
      consumedPre inp ++ (versionEvents c.version inp.buildVersion ++
        validationPhase (effUser inp) inp.serverReverse inp.egResult
          c.remotes) := by
    rw [handleWebsocketModel_unfold decode inp hup hhs ht,
      afterUsers_config decode (effUser inp) inp r c hr hty hdec]
    rfl
  refine ⟨heq, ?_, ?_, ?_⟩
  · rw [heq]
    rw [List.countP_append, List.countP_append]
    rw [(consumedPre_kinds inp).2.2.2.2,
      (validationPhase_kinds (effUser inp) inp.serverReverse inp.egResult
        c.remotes).2.2.2,
      versionEvents_count]
    simp
  · intro hne hempty
    unfold versionEvents
    rw [if_pos hne, hempty]
    simp
  · intro hv
    unfold versionEvents
    rw [if_neg (by simp [hv])]

theorem C9_version_advisory_witness :
    let decode : List UInt8 → Option SessionConfig :=
      fun _ => some { version := "", remotes := [] }
    let inp : WsInput :=
      { upgradeErr := none, handshakeErr := none, usersNonempty := false,
        ticket := none, firstReq := some { rtype := "config", payload := [] },
        serverReverse := false, buildVersion := "1.2.3", egResult := none }
    (handleWebsocketModel decode inp).countP isInfoLine =
      (if ("" : String) ≠ "1.2.3" then 1 else 0) :=
  (C9_version_advisory _ _ _ _ rfl rfl (fun h => Bool.noConfusion h)
    rfl rfl rfl).2.1

/-- **C6 (counterexample).** At a concrete protocol fault — first request
of type `"ping"` — the handler sends the negative reply but never closes
the cryptographic connection before returning: no close event is in the
trace, refuting the claim that every protocol/policy fault terminates
(closes) the connection. -/
theorem C6_counterexample :
    Event.reply false (some "expecting config request") ∈
      handleWebsocketModel (fun _ => none)
        { upgradeErr := none, handshakeErr := none, usersNonempty := false,
          ticket := none, firstReq := some { rtype := "ping", payload := [] },
          serverReverse := false, buildVersion := "v", egResult := none } ∧
    Event.closeSSH ∉
      handleWebsocketModel (fun _ => none)
        { upgradeErr := none, handshakeErr := none, usersNonempty := false,
          ticket := none, firstReq := some { rtype := "ping", payload := [] },
          serverReverse := false, buildVersion := "v", egResult := none } := by
  constructor
  · simp [handleWebsocketModel, afterUsers, failedEvents]
  · simp [handleWebsocketModel, afterUsers, failedEvents]

/-- **C6 (amended).** On every protocol fault (wrong first request type,
undecodable config) and policy fault (validation failure) the handler
sends a negative reply with a human-readable message and returns without
binding a tunnel; the cryptographic connection is explicitly closed by the
handler only on the config-timeout path. -/
theorem C6_fault_handling (decode : List UInt8 → Option SessionConfig)
    (inp : WsInput)
    (hup : inp.upgradeErr = none) (hhs : inp.handshakeErr = none)
    (ht : inp.usersNonempty = true → inp.ticket ≠ none) :
    (∀ r, inp.firstReq = some r → r.rtype ≠ "config" →
      Event.reply false (some "expecting config request") ∈
        handleWebsocketModel decode inp ∧
      ∀ b l, Event.bindTunnel b l ∉ handleWebsocketModel decode inp) ∧
    (∀ r, inp.firstReq = some r → r.rtype = "config" →
      decode r.payload = none →
      Event.reply false (some "invalid config") ∈
        handleWebsocketModel decode inp ∧
      ∀ b l, Event.bindTunnel b l ∉ handleWebsocketModel decode inp) ∧
    (∀ r c evs, inp.firstReq = some r → r.rtype = "config" →
      decode r.payload = some c →
      validateLoop (effUser inp) inp.serverReverse c.remotes = some evs →
      (∃ m, Event.reply false (some m) ∈ handleWebsocketModel decode inp) ∧
      ∀ b l, Event.bindTunnel b l ∉ handleWebsocketModel decode inp) ∧
    (Event.closeSSH ∈ handleWebsocketModel decode inp ↔
      inp.firstReq = none) := by
  have hc4 := fun r hr => C4_config_first decode inp r hup hhs ht hr
  refine ⟨?_, ?_, ?_, ?_⟩
  · intro r hr hty
    obtain ⟨heq, hnb⟩ := (hc4 r hr).1 hty
    refine ⟨?_, hnb⟩
    rw [heq]
    simp [failedEvents]
  · intro r hr hty hd
    obtain ⟨heq, hnb⟩ := (hc4 r hr).2 hty hd
    refine ⟨?_, hnb⟩
    rw [heq]
    simp [failedEvents]
  · intro r c evs hr hty hd hv
    have heq : handleWebsocketModel decode inp =
        consumedPre inp ++ (versionEvents c.version inp.buildVersion ++
          evs) := by
      rw [handleWebsocketModel_unfold decode inp hup hhs ht,
        afterUsers_config decode (effUser inp) inp r c hr hty hd]
      unfold afterConfig validationPhase
      rw [hv]
    have hp := validateLoop_some_props (effUser inp) inp.serverReverse
      c.remotes evs hv
    obtain ⟨⟨m, hm⟩, -, -, -, hnb, -, -⟩ := hp
    constructor
    · exact ⟨m, by rw [heq]; simp [hm]⟩
    · intro b l
      rw [heq]
      simp only [List.mem_append, not_or]
      refine ⟨(consumedPre_kinds inp).2.1 b l, ?_, hnb b l⟩
      rcases versionEvents_shape c.version inp.buildVersion with hs | ⟨m', hs⟩ <;>
        simp [hs]
  · constructor
    · intro hcl
      by_contra hne
      rw [handleWebsocketModel_unfold decode inp hup hhs ht] at hcl
      rcases List.mem_append.mp hcl with h | h
      · exact (consumedPre_kinds inp).2.2.1 h
      · exact (afterUsers_kinds decode (effUser inp) inp).2.2 hne h
    · intro hr
      rw [handleWebsocketModel_unfold decode inp hup hhs ht,
        afterUsers_timeout decode (effUser inp) inp hr]
      simp

theorem C6_fault_handling_witness :
    let decode : List UInt8 → Option SessionConfig := fun _ => none
    let inp : WsInput :=
      { upgradeErr := none, handshakeErr := none, usersNonempty := false,
        ticket := none, firstReq := some { rtype := "config", payload := [] },
        serverReverse := false, buildVersion := "v", egResult := none }
    Event.reply false (some "invalid config") ∈
      handleWebsocketModel decode inp :=
  (((C6_fault_handling _ _ rfl rfl (fun h => Bool.noConfusion h)).2.1
    { rtype := "config", payload := [] } rfl rfl rfl)).1

end Penguin
